import Mathlib

/-!
Verification development for the seo-blackhole-v scraping repository.

The shallow embedding below translates the parts of the source that the
claims are about:

* `config.py`      — the constants of RESOURCE_LIMITS and PERFORMANCE_SETTINGS;
* `exceptions.py`  — error dictionaries, `is_critical_error`, and the
  suppress/re-raise behaviour of the `ExceptionHandler` context manager;
* `web_scraper.py` — `WebScraper.scrape_url`, `WebScraper._fetch_page` and the
  batch routine `WebScraper.scrape_urls` (asyncio semaphore + gather);
* `main.py`        — the summary computation in
  `ScrapingManager.save_final_report`;
* `utils.py`       — `MemoryManager.allocate_memory`;
* `content_scraper.py` — `ContentScraper.scrape_content_from_url`.

External collaborators (HTTP transport, HTML extraction, the filesystem) are
parameters of the embedding, exactly as the spec treats them.  Real time,
logging and file paths are dropped: no claim is about them.
-/

namespace SeoBlackhole

/-! ## config.py -/

/-- RESOURCE_LIMITS.max_retries (config.py line 63). -/
def max_retries : Nat := 3

/-- RESOURCE_LIMITS.retry_delay (config.py line 64). -/
def retry_delay : Nat := 5

/-- PERFORMANCE_SETTINGS.max_concurrent_downloads (config.py line 117); the
default `concurrent_limit` of `scrape_urls`. -/
def max_concurrent_downloads : Nat := 5

/-! ## exceptions.py -/

/-- The dictionary `handle_exception` builds for a raised exception: its
`error_code`, its `message`, and `details.get('windows_error_code', 0)`
(0 models the key being absent, matching the `.get` default on
exceptions.py line 183). -/
structure ExcDict where
  errorCode : String
  message : String
  windowsErrorCode : Nat
  deriving DecidableEq

/-- The `critical_codes` set of `is_critical_error` (exceptions.py 175-180). -/
def criticalCodes : List String :=
  ["SECURITY_ERROR", "RESOURCE_ERROR", "WINDOWS_ERROR_5", "WINDOWS_ERROR_32"]

/-- `is_critical_error` (exceptions.py 173-184). -/
def is_critical_error (e : ExcDict) : Bool :=
  criticalCodes.contains e.errorCode
    || e.windowsErrorCode == 5 || e.windowsErrorCode == 32

/-- `NetworkError("Invalid URL", url=url)` raised at web_scraper.py line 107;
`NetworkError.__init__` sets error_code NETWORK_ERROR and no
windows_error_code detail. -/
def networkErrorInvalidUrl : ExcDict :=
  { errorCode := "NETWORK_ERROR", message := "Invalid URL", windowsErrorCode := 0 }

/-- The fault actually raised at web_scraper.py line 111: the name
`SecurityError` is not among the imports of web_scraper.py (lines 26-29), so
evaluating the raise statement raises a NameError, which
`handle_exception` maps to error_code UNHANDLED_ERROR. -/
def nameErrorSecurity : ExcDict :=
  { errorCode := "UNHANDLED_ERROR",
    message := "name SecurityError is not defined", windowsErrorCode := 0 }

/-- `ResourceError("System resources exceeded limits", ...)` raised at
web_scraper.py lines 120-125; error_code RESOURCE_ERROR. -/
def resourceErrorExc : ExcDict :=
  { errorCode := "RESOURCE_ERROR",
    message := "System resources exceeded limits", windowsErrorCode := 0 }

/-- `NetworkError` for a non-200 response (web_scraper.py 199-203). -/
def networkErrorHttp (status : Nat) : ExcDict :=
  { errorCode := "NETWORK_ERROR",
    message := "HTTP " ++ toString status, windowsErrorCode := 0 }

/-- `NetworkError` wrapping an aiohttp.ClientError (web_scraper.py 204-209). -/
def networkErrorClient (msg : String) : ExcDict :=
  { errorCode := "NETWORK_ERROR", message := msg, windowsErrorCode := 0 }

/-! ## web_scraper.py -/

/-- The environment `_fetch_page` runs in for one URL: a 200 response with a
body, a non-200 status, a transport error, or no usable session
(`self.session` None or closed). -/
inductive FetchResult
  | body (text : String)
  | httpError (status : Nat)
  | clientError (msg : String)
  | noSession
  deriving DecidableEq

/-- `WebScraper._fetch_page` (web_scraper.py 192-210): 200 returns the text,
non-200 and client errors raise NetworkError, and with no open session the
function falls through and returns None. -/
def fetch_page : FetchResult → Except ExcDict (Option String)
  | FetchResult.body text => Except.ok (some text)
  | FetchResult.httpError status => Except.error (networkErrorHttp status)
  | FetchResult.clientError msg => Except.error (networkErrorClient msg)
  | FetchResult.noSession => Except.ok none

/-- One entry of the dictionaries `scrape_url`/`scrape_urls` build: the keys
that the claims mention (`url`, `status`, `error`, `size`); `url` and the
others are optional because the gather-level failure record has no `url` key
and the success record has no `error` key.  Timestamps and save paths are
real-time and filesystem values, dropped from the embedding. -/
structure ScrapeRecord where
  url : Option String
  status : String
  error : Option String
  size : Option Nat
  deriving DecidableEq

/-- All inputs of one `scrape_url` call that the source branches on:
the two validators, the resource check (`all(resources.values())`), the fetch
environment, and whether `_save_content` succeeds. -/
structure UrlEnv where
  url : String
  validUrl : Bool
  safeDomain : Bool
  resourcesOk : Bool
  fetch : FetchResult
  saveOk : Bool
  deriving DecidableEq

/-- A raise inside the `with ExceptionHandler(...)` block
(exceptions.py 186-205): `__exit__` re-raises critical errors and suppresses
the rest, in which case `scrape_url` ends without a return value (None). -/
def raiseInHandler (e : ExcDict) : Except ExcDict (Option ScrapeRecord) :=
  if is_critical_error e then Except.error e else Except.ok none

/-- The inner try of `scrape_url` (web_scraper.py 134-153) applied to the
fetch outcome: a raised exception becomes a failed record with the error
message; truthy content becomes a record whose status depends on
`_save_content`; no content (None or the empty string) falls through and the
function returns None. -/
def handleFetched (url : String) (saveOk : Bool) :
    Except ExcDict (Option String) → Except ExcDict (Option ScrapeRecord)
  | Except.error e =>
      Except.ok (some { url := some url, status := "failed",
                        error := some e.message, size := none })
  | Except.ok none => Except.ok none
  | Except.ok (some content) =>
      if content.isEmpty then Except.ok none
      else
        Except.ok (some { url := some url,
                          status := if saveOk then "success" else "failed",
                          error := none, size := some content.length })

/-- `WebScraper.scrape_url` (web_scraper.py 102-153).  The whole body runs
under `ExceptionHandler`; the three pre-fetch checks raise (and the handler
suppresses or re-raises per `is_critical_error`), then the fetch outcome is
handled by the inner try. -/
def scrape_url (env : UrlEnv) : Except ExcDict (Option ScrapeRecord) :=
  if env.validUrl = false then raiseInHandler networkErrorInvalidUrl
  else if env.safeDomain = false then raiseInHandler nameErrorSecurity
  else if env.resourcesOk = false then raiseInHandler resourceErrorExc
  else handleFetched env.url env.saveOk (fetch_page env.fetch)

/-- The result-processing loop of `scrape_urls` (web_scraper.py 179-188):
`asyncio.gather(..., return_exceptions=True)` hands each task's outcome over
as a value; an exception becomes a failed record without a `url` key, any
other value (including None) is appended as is. -/
def gatherEntry : Except ExcDict (Option ScrapeRecord) → Option ScrapeRecord
  | Except.error e =>
      some { url := none, status := "failed", error := some e.message,
             size := none }
  | Except.ok r => r

/-- `WebScraper.scrape_urls` (web_scraper.py 155-190): one task per URL;
gather returns the outcomes positionally, in the order of the submitted
tasks, and the loop appends them in that order. -/
def scrape_urls (envs : List UrlEnv) : List (Option ScrapeRecord) :=
  envs.map (fun env => gatherEntry (scrape_url env))

/-- `scrape_urls` with each task's completion time attached.  The times are
irrelevant to the returned list: `asyncio.gather` orders results by the
input sequence, not by completion. -/
def scrape_urls_timed (tasks : List (UrlEnv × Nat)) : List (Option ScrapeRecord) :=
  tasks.map (fun t => gatherEntry (scrape_url t.1))

def insertByTime (t : UrlEnv × Nat) : List (UrlEnv × Nat) → List (UrlEnv × Nat)
  | [] => [t]
  | h :: rest =>
      if t.2 ≤ h.2 then t :: h :: rest else h :: insertByTime t rest

/-- Insertion sort of tasks by completion time (stable). -/
def sortByTime : List (UrlEnv × Nat) → List (UrlEnv × Nat)
  | [] => []
  | h :: rest => insertByTime h (sortByTime rest)

/-- Follows the spec's words for C6 (the "completion order" reference
reading): the report lists each task's outcome in the order the tasks
finished. -/
def completionOrderSpec (tasks : List (UrlEnv × Nat)) : List (Option ScrapeRecord) :=
  (sortByTime tasks).map (fun t => gatherEntry (scrape_url t.1))

/-! ## RetryPolicy (spec §4.2) -/

/-- The failure taxonomy of spec §3. -/
inductive FailureKind
  | network
  | timeout
  | resourceExceeded
  | validation
  | unknown
  deriving DecidableEq

inductive RetryDecision
  | retryAfter (delay : Nat)
  | giveUp
  deriving DecidableEq

namespace RetryPolicy

/-- Modelled from the spec: `RetryPolicy.decide` has no implementation under
src/ — only its configuration constants `max_retries` and `retry_delay`
exist (config.py RESOURCE_LIMITS).  Spec §4.2: GiveUp when
`attempt >= max_retries` regardless of kind; GiveUp immediately for
Validation; ResourceExceeded retries with a fixed delay equal to the
sampling interval; otherwise Retry with delay `retry_delay * attempt`. -/
def decide (maxRetries retryDelay samplingInterval attempt : Nat)
    (kind : FailureKind) : RetryDecision :=
  if maxRetries ≤ attempt then RetryDecision.giveUp
  else
    match kind with
    | FailureKind.validation => RetryDecision.giveUp
    | FailureKind.resourceExceeded => RetryDecision.retryAfter samplingInterval
    | _ => RetryDecision.retryAfter (retryDelay * attempt)

end RetryPolicy

/-- Modelled from the spec: the `retriable` flag of a Failure outcome has no
implementation under src/.  Spec §4.3: true for Network, Timeout and
ResourceExceeded, false for Validation (Unknown is treated like the
retriable kinds, per spec §7's "retriable kinds are retried"). -/
def retriable : FailureKind → Bool
  | FailureKind.validation => false
  | _ => true

/-! ## content_scraper.py -/

/-- The structured record `ContentScraper.extract_content` returns (its
fields beyond these are irrelevant to the claims; extraction itself is an
out-of-scope collaborator, spec §1). -/
structure ContentRecord where
  url : String
  title : String
  textContent : String
  deriving DecidableEq

/-- `ContentScraper.scrape_content_from_url` (content_scraper.py 128-141):
truthy fetched HTML is passed to the extraction collaborator; a None (or
empty) extraction result skips the save and the function returns False;
there is no retry anywhere in the method. -/
def scrape_content_from_url (fetched : Option String)
    (extract : String → Option ContentRecord) : Bool :=
  match fetched with
  | none => false
  | some html =>
      if html.isEmpty then false
      else
        match extract html with
        | some _ => true
        | none => false

/-! ## main.py -/

/-- The summary dictionary of `ScrapingManager.save_final_report`
(main.py 91-99).  The success rate is the Python expression
`len(results) / (len(results) + len(failed_items)) * 100`, modelled exactly
over ℚ (the claims concern the formula and the zero case, not float
rounding or the percent-string formatting). -/
structure Summary where
  totalProcessed : Nat
  successful : Nat
  failedCount : Nat
  successRatePercent : ℚ
  deriving DecidableEq

/-- The summary computation of `save_final_report`: with no results and no
failed items the success-rate expression divides by zero, which in Python
raises ZeroDivisionError. -/
def computeSummary (nResults nFailed : Nat) : Except String Summary :=
  if nResults + nFailed = 0 then Except.error "ZeroDivisionError"
  else
    Except.ok
      { totalProcessed := nResults + nFailed
        successful := nResults
        failedCount := nFailed
        successRatePercent :=
          (nResults : ℚ) / ((nResults : ℚ) + (nFailed : ℚ)) * 100 }

/-- `save_final_report` with its outer try/except (main.py 66, 110-112): any
exception inside is caught, logged, and the method returns None — no
summary is written. -/
def save_final_report (nResults nFailed : Nat) : Option Summary :=
  match computeSummary nResults nFailed with
  | Except.ok s => some s
  | Except.error _ => none

/-! ## utils.py -/

/-- The try-block body of `MemoryManager.allocate_memory` (utils.py 142-151):
sampling `psutil.virtual_memory()` may itself raise (modelled by the
`Except.error` input); with a sample, sufficient memory returns True and
insufficient memory raises ResourceError. -/
def allocate_memory_body (sample : Except String Nat) (size : Nat) :
    Except String Bool :=
  match sample with
  | Except.error e => Except.error e
  | Except.ok available =>
      if size ≤ available then Except.ok true
      else Except.error "ResourceError: Insufficient memory"

/-- `MemoryManager.allocate_memory` (utils.py 140-154): the except clause
catches every exception of the body — the sampling fault and the method's
own ResourceError alike — logs it, and returns False. -/
def allocate_memory (sample : Except String Nat) (size : Nat) : Bool :=
  match allocate_memory_body sample size with
  | Except.ok b => b
  | Except.error _ => false

/-! ## Concurrency model of scrape_urls

`scrape_urls` creates one task per URL and wraps each in
`async with semaphore` where `semaphore = asyncio.Semaphore(concurrent_limit)`
(web_scraper.py 164-173).  A task is *queued* while awaiting the semaphore,
*in flight* while holding it, and *terminal* after releasing it; acquiring
only succeeds while fewer than `concurrent_limit` tasks hold the semaphore.
The step relation below is that protocol. -/

structure SchedState where
  queued : Nat
  inFlight : Nat
  terminal : Nat
  deriving DecidableEq

/-- The two events of the batch: a queued task acquires the semaphore (only
enabled while `inFlight < cap`), or an in-flight task finishes and releases
it. -/
inductive SchedStep (cap : Nat) : SchedState → SchedState → Prop
  | start (s : SchedState) (hq : 0 < s.queued) (hf : s.inFlight < cap) :
      SchedStep cap s
        { queued := s.queued - 1, inFlight := s.inFlight + 1,
          terminal := s.terminal }
  | finish (s : SchedState) (hf : 0 < s.inFlight) :
      SchedStep cap s
        { queued := s.queued, inFlight := s.inFlight - 1,
          terminal := s.terminal + 1 }

/-- States reachable from `start` by batch events. -/
inductive ReachableFrom (cap : Nat) (start : SchedState) : SchedState → Prop
  | refl : ReachableFrom cap start start
  | tail {t u : SchedState} :
      ReachableFrom cap start t → SchedStep cap t u → ReachableFrom cap start u

/-- The batch's initial state: all `n` submitted tasks queued, none running
(web_scraper.py 171-173 creates the tasks; none holds the semaphore yet). -/
def initState (n : Nat) : SchedState :=
  { queued := n, inFlight := 0, terminal := 0 }

/-! ## Concrete environments used by the concrete theorems -/

/-- A syntactically malformed URL: `NetworkUtils.is_valid_url` is false and
scrape_url raises `NetworkError("Invalid URL")` before any I/O. -/
def invalidUrlEnv : UrlEnv :=
  { url := "not_a_url", validUrl := false, safeDomain := true,
    resourcesOk := true, fetch := FetchResult.noSession, saveOk := true }

/-- A well-formed URL fetched through a closed aiohttp session:
`_fetch_page` falls through and yields no content. -/
def closedSessionEnv : UrlEnv :=
  { url := "https://c.example", validUrl := true, safeDomain := true,
    resourcesOk := true, fetch := FetchResult.noSession, saveOk := true }

/-- A well-formed URL scraped while `SystemUtils.check_resources` reports a
limit exceeded: scrape_url raises ResourceError before fetching. -/
def resourceDeniedEnv : UrlEnv :=
  { url := "https://ok.example", validUrl := true, safeDomain := true,
    resourcesOk := false, fetch := FetchResult.body "body", saveOk := true }

/-- Task A: fetch succeeds with a 4-byte body, completing at time 10. -/
def envA : UrlEnv :=
  { url := "https://a.example", validUrl := true, safeDomain := true,
    resourcesOk := true, fetch := FetchResult.body "aaaa", saveOk := true }

/-- Task B: fetch succeeds with a 2-byte body, completing at time 1. -/
def envB : UrlEnv :=
  { url := "https://b.example", validUrl := true, safeDomain := true,
    resourcesOk := true, fetch := FetchResult.body "bb", saveOk := true }

/-- A batch where the first submitted task finishes last. -/
def slowFirstBatch : List (UrlEnv × Nat) := [(envA, 10), (envB, 1)]

/-! ## Helper lemmas -/

/-- `handleFetched` never raises: every fetch outcome, including the raised
NetworkErrors, is turned into a returned value by the inner try of
scrape_url. -/
theorem handleFetched_isOk (url : String) (saveOk : Bool)
    (fr : Except ExcDict (Option String)) :
    ∃ r, handleFetched url saveOk fr = Except.ok r := by
  match fr with
  | Except.error e => exact ⟨_, rfl⟩
  | Except.ok none => exact ⟨none, rfl⟩
  | Except.ok (some content) =>
      by_cases hb : content.isEmpty = true
      · simp only [handleFetched]
        rw [if_pos hb]
        exact ⟨none, rfl⟩
      · simp only [handleFetched]
        rw [if_neg hb]
        exact ⟨_, rfl⟩

/-- The only exception that ever escapes `scrape_url` is the critical
ResourceError: the two other raise sites are classified non-critical and
suppressed by the ExceptionHandler, and the inner try converts every fetch
fault into a returned record. -/
theorem scrape_url_error_eq (env : UrlEnv) (e : ExcDict)
    (h : scrape_url env = Except.error e) : e = resourceErrorExc := by
  unfold scrape_url at h
  split_ifs at h with h1 h2 h3
  · rw [show raiseInHandler networkErrorInvalidUrl = Except.ok none from rfl] at h
    exact Except.noConfusion h
  · rw [show raiseInHandler nameErrorSecurity = Except.ok none from rfl] at h
    exact Except.noConfusion h
  · rw [show raiseInHandler resourceErrorExc = Except.error resourceErrorExc from rfl] at h
    injection h with h4
    exact h4.symm
  · obtain ⟨r, hr⟩ := handleFetched_isOk env.url env.saveOk (fetch_page env.fetch)
    rw [hr] at h
    exact Except.noConfusion h

/-! ## C1 — conservation -/

/-- C1: every run over a submitted URL list resolves every submitted item to
exactly one entry of the batch result (`scrape_urls` returns exactly one
outcome per URL — gather with return_exceptions=True drops nothing), and
every summary `save_final_report` produces satisfies
total_processed = successful + failed. -/
theorem C1_conservation :
    (∀ envs : List UrlEnv, (scrape_urls envs).length = envs.length) ∧
    (∀ (nR nF : Nat) (s : Summary), computeSummary nR nF = Except.ok s →
      s.totalProcessed = s.successful + s.failedCount) := by
  constructor
  · intro envs
    simp [scrape_urls]
  · intro nR nF s h
    unfold computeSummary at h
    by_cases h0 : nR + nF = 0
    · rw [if_pos h0] at h
      exact Except.noConfusion h
    · rw [if_neg h0] at h
      injection h with h2
      subst h2
      rfl

/-- The summary `computeSummary 1 0` evaluates to, written with the exact
field expressions the computation produces. -/
def summary10 : Summary :=
  { totalProcessed := 1 + 0, successful := 1, failedCount := 0,
    successRatePercent :=
      ((1 : Nat) : ℚ) / (((1 : Nat) : ℚ) + ((0 : Nat) : ℚ)) * 100 }

/-- Witness for C1 at a concrete run: one URL submitted, one entry returned;
a summary of one success and zero failures balances. -/
theorem C1_conservation_witness :
    (scrape_urls [closedSessionEnv]).length = 1 ∧
    summary10.totalProcessed = summary10.successful + summary10.failedCount :=
  ⟨C1_conservation.1 [closedSessionEnv], C1_conservation.2 1 0 summary10 rfl⟩

/-! ## C2 — concurrency bound -/

/-- C2: in every state the batch can reach from its initial state, the
number of in-flight fetch workers never exceeds the semaphore's cap,
regardless of how many work items were submitted. -/
theorem C2_concurrency_bound (cap n : Nat) (s : SchedState)
    (h : ReachableFrom cap (initState n) s) : s.inFlight ≤ cap := by
  induction h with
  | refl => exact Nat.zero_le cap
  | tail hr hstep ih =>
      cases hstep with
      | start hq hf => exact hf
      | finish hf => exact le_trans (Nat.sub_le _ _) ih

/-- Witness for C2: two tasks submitted under the configured default cap
of 5; after one acquisition the reached state has one in-flight worker,
within the bound. -/
theorem C2_concurrency_bound_witness :
    SchedState.inFlight
        { queued := 1, inFlight := 1, terminal := 0 } ≤
      max_concurrent_downloads :=
  C2_concurrency_bound max_concurrent_downloads 2 _
    (ReachableFrom.tail ReachableFrom.refl
      (SchedStep.start (initState 2) (by decide) (by decide)))

/-! ## C3 — per-item fault propagation -/

/-- C3 counterexample: a per-item fault (the NetworkError raised for an
invalid URL) is classified non-critical, the ExceptionHandler suppresses it,
scrape_url returns None, and the batch result holds a None entry — no
classified failure record with status or error fields is produced for the
fault, refuting the claim as stated. -/
theorem C3_counterexample :
    is_critical_error networkErrorInvalidUrl = false ∧
    scrape_url invalidUrlEnv = Except.ok none ∧
    scrape_urls [invalidUrlEnv] = [none] :=
  ⟨rfl, rfl, rfl⟩

/-- C3 amended: no per-item fault propagates out of the batch routine and
every submitted URL yields exactly one entry; a fault that escapes
scrape_url (necessarily critical) is converted by the batch routine into a
failure record with status "failed" and the error message; but a fault the
ExceptionHandler suppresses as non-critical (and a fetch yielding no
content) produces a None entry rather than a classified failure record. -/
theorem C3_amended (envs : List UrlEnv) :
    (scrape_urls envs).length = envs.length ∧
    (∀ (env : UrlEnv) (e : ExcDict), scrape_url env = Except.error e →
      is_critical_error e = true ∧
      gatherEntry (scrape_url env) =
        some { url := none, status := "failed", error := some e.message,
               size := none }) ∧
    (∀ env : UrlEnv, scrape_url env = Except.ok none →
      gatherEntry (scrape_url env) = none) := by
  refine ⟨by simp [scrape_urls], ?_, ?_⟩
  · intro env e h
    have he : e = resourceErrorExc := scrape_url_error_eq env e h
    subst he
    refine ⟨rfl, ?_⟩
    rw [h]
    rfl
  · intro env h
    rw [h]
    rfl

/-- Witness for C3 amended, at concrete inputs: a two-item batch yields two
entries; the critical ResourceError path produces a classified failure
record; the suppressed invalid-URL path produces a None entry. -/
theorem C3_amended_witness :
    (scrape_urls [invalidUrlEnv, closedSessionEnv]).length = 2 ∧
    is_critical_error resourceErrorExc = true ∧
    gatherEntry (scrape_url invalidUrlEnv) = none :=
  ⟨(C3_amended [invalidUrlEnv, closedSessionEnv]).1,
   ((C3_amended []).2.1 resourceDeniedEnv resourceErrorExc rfl).1,
   (C3_amended []).2.2 invalidUrlEnv rfl⟩

/-! ## C4 — retry decision function -/

/-- C4 counterexample: the claim's uniform rule ("otherwise retries with
delay retry_delay * attempt" for every kind below the cap) fails on the
spec-modelled decision function: at (attempt 1, Validation) the decision is
GiveUp, not Retry(5), and at (attempt 3, Network) with the default
max_retries = 3 the decision is GiveUp, not Retry(15). -/
theorem C4_counterexample :
    RetryPolicy.decide max_retries retry_delay 30 1 FailureKind.validation
        = RetryDecision.giveUp ∧
    RetryPolicy.decide max_retries retry_delay 30 3 FailureKind.network
        = RetryDecision.giveUp ∧
    RetryDecision.giveUp ≠ RetryDecision.retryAfter (retry_delay * 1) ∧
    RetryDecision.giveUp ≠ RetryDecision.retryAfter (retry_delay * 3) := by
  decide

/-- C4 amended: with the configured defaults (max_retries = 3,
retry_delay = 5) the decision gives up at attempt >= max_retries regardless
of kind; below the cap it gives up immediately for Validation, retries
ResourceExceeded with the fixed sampling-interval delay, and retries the
other kinds with delay retry_delay * attempt, so the linear delays at
attempts 1 and 2 are 5 and 10 — a delay of 15 at attempt 3 arises only when
max_retries exceeds 3. -/
theorem C4_amended :
    (∀ (attempt si : Nat) (kind : FailureKind), max_retries ≤ attempt →
      RetryPolicy.decide max_retries retry_delay si attempt kind
        = RetryDecision.giveUp) ∧
    (∀ attempt si : Nat,
      RetryPolicy.decide max_retries retry_delay si attempt
          FailureKind.validation = RetryDecision.giveUp) ∧
    (∀ si : Nat,
      RetryPolicy.decide max_retries retry_delay si 1 FailureKind.network
        = RetryDecision.retryAfter 5) ∧
    (∀ si : Nat,
      RetryPolicy.decide max_retries retry_delay si 2 FailureKind.network
        = RetryDecision.retryAfter 10) ∧
    (∀ si attempt : Nat, attempt < max_retries →
      RetryPolicy.decide max_retries retry_delay si attempt
          FailureKind.resourceExceeded = RetryDecision.retryAfter si) ∧
    RetryPolicy.decide 4 retry_delay 30 3 FailureKind.network
      = RetryDecision.retryAfter 15 := by
  refine ⟨?_, ?_, ?_, ?_, ?_, rfl⟩
  · intro attempt si kind h
    unfold RetryPolicy.decide
    rw [if_pos h]
  · intro attempt si
    unfold RetryPolicy.decide
    split_ifs <;> rfl
  · intro si
    rfl
  · intro si
    rfl
  · intro si attempt h
    unfold RetryPolicy.decide
    rw [if_neg (by omega)]

/-- Witness for C4 amended at concrete inputs: attempt 3 of a Timeout gives
up; attempt 2 of a ResourceExceeded retries after the sampling interval. -/
theorem C4_amended_witness :
    RetryPolicy.decide max_retries retry_delay 30 3 FailureKind.timeout
        = RetryDecision.giveUp ∧
    RetryPolicy.decide max_retries retry_delay 30 2
        FailureKind.resourceExceeded = RetryDecision.retryAfter 30 :=
  ⟨C4_amended.1 3 30 FailureKind.timeout (by decide),
   C4_amended.2.2.2.2.1 30 2 (by decide)⟩

/-! ## C5 — validation short-circuit -/

/-- C5: a work item whose extraction yields a null record resolves
immediately without success — decide (0, Validation) is GiveUp regardless
of max_retries, Validation failures are not retriable, and
scrape_content_from_url reports False (never a success) when the extractor
returns None, with no retry in the method. -/
theorem C5_validation_short_circuit :
    (∀ mr rd si : Nat,
      RetryPolicy.decide mr rd si 0 FailureKind.validation
        = RetryDecision.giveUp) ∧
    retriable FailureKind.validation = false ∧
    (∀ fetched : Option String,
      scrape_content_from_url fetched (fun _ => none) = false) := by
  refine ⟨?_, rfl, ?_⟩
  · intro mr rd si
    unfold RetryPolicy.decide
    split_ifs <;> rfl
  · intro fetched
    cases fetched with
    | none => rfl
    | some html =>
        by_cases hb : html.isEmpty = true <;>
          simp [scrape_content_from_url, hb]

/-! ## C6 — result ordering -/

/-- C6 counterexample: in a two-task batch whose second task completes
first, scrape_urls still lists the first submitted task first — the report
is in submission order, and differs from the completion-order reading of
the spec at this input. -/
theorem C6_counterexample :
    scrape_urls_timed slowFirstBatch =
      [gatherEntry (scrape_url envA), gatherEntry (scrape_url envB)] ∧
    completionOrderSpec slowFirstBatch =
      [gatherEntry (scrape_url envB), gatherEntry (scrape_url envA)] ∧
    scrape_urls_timed slowFirstBatch ≠ completionOrderSpec slowFirstBatch := by
  refine ⟨rfl, rfl, ?_⟩
  decide

/-- C6 amended: the batch result is positionally aligned with submission
order — the i-th entry of scrape_urls is the outcome of the i-th submitted
URL, whatever the completion times (asyncio.gather orders results by the
input sequence). -/
theorem C6_amended (tasks : List (UrlEnv × Nat)) :
    ∀ (i : Nat) (h1 : i < tasks.length)
      (h2 : i < (scrape_urls_timed tasks).length),
      (scrape_urls_timed tasks).get ⟨i, h2⟩ =
        gatherEntry (scrape_url (tasks.get ⟨i, h1⟩).1) := by
  induction tasks with
  | nil =>
      intro i h1 h2
      exact absurd h1 (Nat.not_lt_zero i)
  | cons hd tl ih =>
      intro i h1 h2
      cases i with
      | zero => rfl
      | succ n =>
          exact ih n (Nat.lt_of_succ_lt_succ h1) (Nat.lt_of_succ_lt_succ h2)

/-- Witness for C6 amended: in the concrete slow-first batch, entry 0 is
the outcome of the first submitted task. -/
theorem C6_amended_witness :
    (scrape_urls_timed slowFirstBatch).get ⟨0, by decide⟩ =
      gatherEntry (scrape_url envA) :=
  C6_amended slowFirstBatch 0 (by decide) (by decide)

/-! ## C7 — success rate on an empty run -/

/-- C7: claim is right, code is wrong — on an empty run (no results, no
failed items) the success-rate expression of save_final_report divides by
zero; the ZeroDivisionError is caught by the method's outer except and the
method returns None, writing no summary at all, instead of reporting a
success rate of 0. -/
theorem C7_empty_run_zero_division :
    computeSummary 0 0 = Except.error "ZeroDivisionError" ∧
    save_final_report 0 0 = none :=
  ⟨rfl, rfl⟩

/-! ## C8 — resource-pressure admission -/

/-- C8 counterexample: with the resource check failing, scrape_url raises a
ResourceError that is_critical_error classifies as critical, so it escapes
scrape_url and the batch records the affected item as a terminal failure
with the resource message — resource pressure is surfaced as a per-item
error, refuting "never surfaced as an error or a fatal fault for the
affected items". -/
theorem C8_counterexample :
    scrape_url resourceDeniedEnv = Except.error resourceErrorExc ∧
    is_critical_error resourceErrorExc = true ∧
    scrape_urls [resourceDeniedEnv] =
      [some { url := none, status := "failed",
              error := some "System resources exceeded limits",
              size := none }] :=
  ⟨rfl, rfl, rfl⟩

/-- C8 amended: when the resource check denies, the affected item is not
deferred but terminally failed — scrape_url raises the critical
ResourceError, the batch converts it into a failed record for that item,
and the run still finalizes with one entry per submitted item. -/
theorem C8_amended (envs : List UrlEnv) (env : UrlEnv)
    (hv : env.validUrl = true) (hs : env.safeDomain = true)
    (hr : env.resourcesOk = false) :
    scrape_url env = Except.error resourceErrorExc ∧
    gatherEntry (scrape_url env) =
      some { url := none, status := "failed",
             error := some "System resources exceeded limits",
             size := none } ∧
    (scrape_urls (env :: envs)).length = envs.length + 1 := by
  obtain ⟨u, vU, sD, rO, f, sv⟩ := env
  dsimp only at hv hs hr
  subst hv
  subst hs
  subst hr
  refine ⟨rfl, rfl, ?_⟩
  simp [scrape_urls]

/-- Witness for C8 amended at the concrete resource-denied environment. -/
theorem C8_amended_witness :
    gatherEntry (scrape_url resourceDeniedEnv) =
      some { url := none, status := "failed",
             error := some "System resources exceeded limits",
             size := none } ∧
    (scrape_urls [resourceDeniedEnv]).length = 1 :=
  ⟨(C8_amended [] resourceDeniedEnv rfl rfl rfl).2.1,
   (C8_amended [] resourceDeniedEnv rfl rfl rfl).2.2⟩

/-! ## C9 — sampling failure in the admission check -/

/-- C9 counterexample: when sampling itself fails, allocate_memory returns
False — the check fails closed, not open as the claim states. -/
theorem C9_counterexample :
    allocate_memory (Except.error "platform API error") 1024 = false ∧
    allocate_memory (Except.error "platform API error") 1024 ≠ true := by
  decide

/-- C9 amended: allocate_memory fails closed — a sampling fault (and the
method's own ResourceError on insufficient memory) is caught by the except
clause, logged, and the check returns False; it returns True exactly when
sampling succeeds and the available memory covers the requested size. -/
theorem C9_amended :
    (∀ (e : String) (size : Nat),
      allocate_memory (Except.error e) size = false) ∧
    (∀ available size : Nat, size ≤ available →
      allocate_memory (Except.ok available) size = true) ∧
    (∀ available size : Nat, available < size →
      allocate_memory (Except.ok available) size = false) := by
  refine ⟨?_, ?_, ?_⟩
  · intro e size
    rfl
  · intro a s h
    simp [allocate_memory, allocate_memory_body, h]
  · intro a s h
    have hn : ¬s ≤ a := by omega
    simp [allocate_memory, allocate_memory_body, hn]

/-- Witness for C9 amended at concrete sizes. -/
theorem C9_amended_witness :
    allocate_memory (Except.error "boom") 7 = false ∧
    allocate_memory (Except.ok 10) 7 = true ∧
    allocate_memory (Except.ok 3) 7 = false :=
  ⟨C9_amended.1 "boom" 7, C9_amended.2.1 10 7 (by decide),
   C9_amended.2.2 3 7 (by decide)⟩

/-! ## C10 — None entries in the batch result -/

/-- C10: scrape_url returns None (not a status dictionary) when a raised
per-item error is classified non-critical and suppressed (invalid URL,
NetworkError) and when the fetch yields no content (closed session), and
scrape_urls passes those None values through, so the batch result contains
entries carrying no url, status or error fields. -/
theorem C10_none_entries :
    is_critical_error networkErrorInvalidUrl = false ∧
    scrape_url invalidUrlEnv = Except.ok none ∧
    scrape_url closedSessionEnv = Except.ok none ∧
    scrape_urls [invalidUrlEnv, closedSessionEnv] = [none, none] :=
  ⟨rfl, rfl, rfl, rfl⟩

end SeoBlackhole
